import Mathlib

/-!
Shallow embedding of the DingTalk A2A bridge (files types.py, a2a_client.py,
db_manager.py, main.py) and verification of its specification claims.

Python strings are modelled by Lean String, integers by Int or Nat, optional
values by Option, dictionaries by key-value association lists, raised
exceptions by Except, and the awaited sends and sleeps performed by the
bridge by an explicit event list.
-/

namespace A2ABridge

/-! ### types.py: protocol data model -/

/-- TaskState enumeration (types.py lines 17-25).  The string value of each
member is given by TaskState.value below. -/
inductive TaskState where
  | submitted
  | working
  | input_required
  | completed
  | canceled
  | failed
  | unknown
deriving DecidableEq

/-- The string value of each TaskState member, exactly as written in the
source: note INPUT_REQUIRED carries the value "input-required". -/
def TaskState.value : TaskState → String
  | .submitted => "submitted"
  | .working => "working"
  | .input_required => "input-required"
  | .completed => "completed"
  | .canceled => "canceled"
  | .failed => "failed"
  | .unknown => "unknown"

/-- Decoding a string into a TaskState member, as pydantic does when parsing
a task status: the value must be one of the seven member values. -/
def TaskState.ofValue : String → Option TaskState
  | "submitted" => some .submitted
  | "working" => some .working
  | "input-required" => some .input_required
  | "completed" => some .completed
  | "canceled" => some .canceled
  | "failed" => some .failed
  | "unknown" => some .unknown
  | _ => none

/-- FileContent (types.py lines 35-41): four optional string fields.
Metadata-free faithful rendering of the pydantic model fields. -/
structure FileContent where
  name : Option String := none
  mimeType : Option String := none
  bytes : Option String := none
  uri : Option String := none
deriving DecidableEq

/-- Python truthiness of an Optional[str] value: None and the empty string
are falsy, every other string is truthy. -/
def truthyStr : Option String → Bool
  | none => false
  | some s => !s.isEmpty

/-- The model validator FileContent.check_content (types.py lines 42-50),
run by pydantic at construction: it raises (Except.error) unless the
truthiness condition on bytes and uri holds. -/
def FileContent.check_content (self : FileContent) : Except String FileContent :=
  if !(truthyStr self.bytes || truthyStr self.uri) then
    Except.error "Either 'bytes' or 'uri' must be present in the file data"
  else if truthyStr self.bytes && truthyStr self.uri then
    Except.error "Only one of 'bytes' or 'uri' can be present in the file data"
  else
    Except.ok self

/-- Message parts (types.py lines 28-67): the discriminated union of
TextPart, FilePart and DataPart.  The data dictionary of a DataPart is
represented by its JSON serialization json.dumps(part.data,
ensure_ascii=False), which is the only view of it the bridge ever uses. -/
inductive Part where
  | text (text : String)
  | file (file : FileContent)
  | data (serialized : String)
deriving DecidableEq

/-- Message roles (types.py line 72). -/
inductive Role where
  | user
  | agent
deriving DecidableEq

/-- Message (types.py lines 70-74), metadata omitted (never read). -/
structure Message where
  role : Role
  parts : List Part
deriving DecidableEq

/-- TaskStatus (types.py lines 77-85); the wall-clock timestamp field is
omitted (never read by the bridge). -/
structure TaskStatus where
  state : TaskState
  message : Option Message := none
deriving DecidableEq

/-- Artifact (types.py lines 88-96); metadata and chunking flags omitted
(never read by the bridge). -/
structure Artifact where
  name : Option String := none
  description : Option String := none
  parts : List Part
  index : Nat := 0
deriving DecidableEq

/-- Task (types.py lines 99-106); session, messages and metadata omitted
(never read by the response processing path). -/
structure Task where
  id : String
  status : TaskStatus
  artifacts : Option (List Artifact) := none
deriving DecidableEq

/-- JSONRPCError (types.py lines 173-177), the data field omitted. -/
structure JSONRPCError where
  code : Int
  message : String
deriving DecidableEq

/-- SendTaskResponse (types.py lines 180-194): a JSON-RPC response with an
optional Task result and an optional error; envelope fields omitted. -/
structure SendTaskResponse where
  result : Option Task := none
  error : Option JSONRPCError := none
deriving DecidableEq

/-- The two typed client exceptions (types.py lines 220-232):
A2AClientHTTPError carries a status code and a message, A2AClientJSONError
carries a message. -/
inductive A2AClientError where
  | httpError (status_code : Nat) (message : String)
  | jsonError (message : String)
deriving DecidableEq

/-- The str() rendering of each exception, from the super().__init__ calls
in types.py lines 225 and 232. -/
def A2AClientError.toMessage : A2AClientError → String
  | .httpError status_code message =>
      "HTTP Error " ++ toString status_code ++ ": " ++ message
  | .jsonError message => "JSON Error: " ++ message

/-! ### a2a_client.py: the backend client -/

/-- The possible outcomes of the HTTP POST performed inside
A2AClient._send_request (a2a_client.py lines 108-133), as seen by the
surrounding try block.  `response status bodyText parsed` is a completed
HTTP exchange: `parsed` is the JSON decode of the body (`Except.error e`
when `await response.json()` raises json.JSONDecodeError with str(e) = e);
`clientError` is an aiohttp.ClientError with the given str(e); `timeout` is
asyncio.TimeoutError.  The decoded body type is abstract (α). -/
inductive PostOutcome (α : Type) where
  | response (status : Nat) (bodyText : String) (parsed : Except String α)
  | clientError (msg : String)
  | timeout

/-- A2AClient._send_request (a2a_client.py lines 92-133), as a function of
the HTTP outcome: a non-200 status raises A2AClientHTTPError(status, body
text); a 200 response whose body fails JSON decoding raises
A2AClientJSONError(str(e)); a network error raises
A2AClientHTTPError(500, str(e)); a timeout raises
A2AClientHTTPError(408, "Request timeout"). -/
def send_request {α : Type} : PostOutcome α → Except A2AClientError α
  | .response status bodyText parsed =>
      if status ≠ 200 then
        Except.error (.httpError status bodyText)
      else
        match parsed with
        | .ok response_data => Except.ok response_data
        | .error e => Except.error (.jsonError e)
  | .clientError msg => Except.error (.httpError 500 msg)
  | .timeout => Except.error (.httpError 408 "Request timeout")

/-- The agent card returned by the health probe; only its optional name is
read (for a debug log line). -/
structure AgentCard where
  name : Option String := none
deriving DecidableEq

/-- The possible outcomes of the GET performed inside A2AClient.check_health
(a2a_client.py lines 144-159): a completed HTTP exchange whose body either
decodes as JSON or raises json.JSONDecodeError, or any exception (network
error, timeout, ...) caught by the final `except Exception` clause. -/
inductive ProbeOutcome where
  | response (status : Nat) (parsed : Except String AgentCard)
  | exn (msg : String)

/-- A2AClient.check_health (a2a_client.py lines 135-159): returns true only
on HTTP 200 with a JSON-decodable body; a non-200 status, a JSON decode
failure and every raised exception all return false.  Totality of this
function reflects that check_health never propagates an exception. -/
def check_health : ProbeOutcome → Bool
  | .response status parsed =>
      if status = 200 then
        match parsed with
        | .ok _ => true
        | .error _ => false
      else
        false
  | .exn _ => false

/-- A2AClient.__init__ (a2a_client.py lines 19-27) strips trailing slashes
from the configured URL: self.url = url.rstrip('/'). -/
def rstrip_slash (url : String) : String :=
  String.mk ((url.toList.reverse.dropWhile (fun c => c == '/')).reverse)

/-- A handle to one A2AClient instance.  `id` models Python object identity
(each construction yields a fresh id), `url` is the instance's self.url. -/
structure A2AClientH where
  id : Nat
  url : String
deriving DecidableEq

/-- Constructing A2AClient(url=server_url) (a2a_client.py lines 19-27):
the new instance is bound to server_url stripped of trailing slashes. -/
def mkA2AClient (id : Nat) (server_url : String) : A2AClientH :=
  { id := id, url := rstrip_slash server_url }

/-! ### db_manager.py: the user preference store -/

/-- Key lookup in an association list, modelling Python dict access
dict.get(key): the first binding of the key, if any.  Python dicts hold at
most one binding per key. -/
def lookupKV {β : Type} (key : String) : List (String × β) → Option β
  | [] => none
  | (k, v) :: rest => if k = key then some v else lookupKV key rest

/-- Key update in an association list, modelling Python dict assignment
dict[key] = value: replaces the first binding of the key in place, or
appends a new binding at the end. -/
def setKV {β : Type} (key : String) (value : β) : List (String × β) → List (String × β)
  | [] => [(key, value)]
  | (k, v) :: rest =>
      if k = key then (key, value) :: rest else (k, v) :: setKV key value rest

/-- The preference store contents: each user's parsed config dict
(db_manager.py get_user_config, lines 51-75; a missing row and a corrupt
row both yield the empty dict).  Values are strings, which covers the one
key the bridge uses (a2a_server_url). -/
def UserDB : Type := String → List (String × String)

/-- DBManager.get_user_key (db_manager.py lines 141-154): reads the user's
config dict and returns config.get(key, default). -/
def get_user_key (db : UserDB) (user_id key default : String) : String :=
  match lookupKV key (db user_id) with
  | some value => value
  | none => default

/-! ### main.py: the per-user client pool -/

/-- The pool state of DingTalkA2AClient: user_a2a_clients is the
{user_id: (client, last_active_time)} dict (main.py line 54); closed
records the ids of clients whose close() has been awaited; nextId is the
allocator of fresh client handles.  Times are integers (time.time()
readings). -/
structure PoolState where
  user_a2a_clients : List (String × A2AClientH × Int)
  closed : List Nat
  nextId : Nat
deriving DecidableEq

/-- DingTalkA2AClient.get_user_a2a_client (main.py lines 203-231), with the
current time, the preference store and the default server URL passed
explicitly: on a hit, refresh the last-active time and return the stored
client; on a miss, resolve the server URL via get_user_key, construct a new
A2AClient bound to it, install it with the current time and return it. -/
def get_user_a2a_client (now : Int) (db : UserDB) (default_a2a_server_url : String)
    (user_id : String) (s : PoolState) : A2AClientH × PoolState :=
  match lookupKV user_id s.user_a2a_clients with
  | some (client, _) =>
      (client, { s with user_a2a_clients := setKV user_id (client, now) s.user_a2a_clients })
  | none =>
      let server_url := get_user_key db user_id "a2a_server_url" default_a2a_server_url
      let client := mkA2AClient s.nextId server_url
      (client,
        { s with
          user_a2a_clients := setKV user_id (client, now) s.user_a2a_clients
          nextId := s.nextId + 1 })

/-- DingTalkA2AClient.update_user_a2a_client (main.py lines 233-259).  The
try block first awaits close() on the existing client (recorded in closed),
then constructs A2AClient(url=server_url); `constructOk` is whether that
construction succeeds.  On success the new client is installed and True is
returned; on failure the except clause returns False, leaving the pool
entry pointing at the already closed client. -/
def update_user_a2a_client (now : Int) (constructOk : Bool)
    (user_id server_url : String) (s : PoolState) : Bool × PoolState :=
  let s1 :=
    match lookupKV user_id s.user_a2a_clients with
    | some (old_client, _) => { s with closed := old_client.id :: s.closed }
    | none => s
  if constructOk then
    let client := mkA2AClient s1.nextId server_url
    (true,
      { s1 with
        user_a2a_clients := setKV user_id (client, now) s1.user_a2a_clients
        nextId := s1.nextId + 1 })
  else
    (false, s1)

/-- DingTalkA2AClient.cleanup_inactive_clients (main.py lines 184-201):
collects every entry whose last-active time is strictly more than
client_inactive_timeout seconds before current_time, awaits close() on each
collected client and deletes its entry. -/
def cleanup_inactive_clients (current_time client_inactive_timeout : Int)
    (s : PoolState) : PoolState :=
  let clients_to_remove :=
    s.user_a2a_clients.filter (fun e => decide (current_time - e.2.2 > client_inactive_timeout))
  { user_a2a_clients :=
      s.user_a2a_clients.filter (fun e => decide (¬(current_time - e.2.2 > client_inactive_timeout)))
    closed := clients_to_remove.map (fun e => e.2.1.id) ++ s.closed
    nextId := s.nextId }

/-! ### main.py: outbound pipeline and response interpreter -/

/-- One awaited outbound action of the bridge: `send text` is
self.sender.send_text_to_user(user_id, text); `sleep` is the
asyncio.sleep(0.5) pause between chunk sends (main.py line 534). -/
inductive Out where
  | send (text : String)
  | sleep
deriving DecidableEq

/-- The texts sent by a list of outbound actions, in order. -/
def sentTexts (events : List Out) : List String :=
  events.filterMap (fun e => match e with | .send t => some t | .sleep => none)

/-- The chunk list built by the loop
`for i in range(0, len(text), max_length): parts.append(text[i:i+max_length])`
(main.py lines 525-527).  The range count equals the ceiling of
len(text) / max_length whenever max_length is positive, which holds at every
call site (it defaults to 2000 and is never overridden). -/
def splitParts (text : String) (max_length : Nat) : List String :=
  (List.range ((text.length + max_length - 1) / max_length)).map
    (fun k => (text.drop (k * max_length)).take max_length)

/-- DingTalkA2AClient.send_long_text (main.py lines 518-534): a text within
max_length is sent verbatim as a single message; a longer text is split
into max_length-sized chunks, and each chunk is sent with a "[i/N]" and
newline label followed by the 0.5 second pause. -/
def send_long_text (text : String) (max_length : Nat := 2000) : List Out :=
  if text.length ≤ max_length then
    [.send text]
  else
    let parts := splitParts text max_length
    (List.enumFrom 1 parts).flatMap
      (fun ip =>
        [.send ("[" ++ toString ip.1 ++ "/" ++ toString parts.length ++ "]\n" ++ ip.2),
         .sleep])

/-- The outbound actions for one artifact part in the completed branch of
process_a2a_response (main.py lines 481-497): text parts go through
send_long_text; data parts send a truncated preview of the serialized
payload; file parts send a description built from the truthy name and uri
fields. -/
def processPart : Part → List Out
  | .text text => send_long_text text
  | .data serialized =>
      [.send ("收到结构化数据: " ++ serialized.take 100 ++ "...")]
  | .file f =>
      let file_info := "收到文件: "
      let file_info := if truthyStr f.name then file_info ++ f.name.getD "" else file_info
      let file_info :=
        if truthyStr f.uri then file_info ++ " (链接: " ++ f.uri.getD "" ++ ")"
        else file_info
      [.send file_info]

/-- DingTalkA2AClient.process_a2a_response (main.py lines 447-516), as the
ordered list of outbound actions it awaits.  A None response sends a fixed
apology; a response with an error sends exactly one message built from the
error code and message and returns; a response without a result sends a
fixed notice; otherwise the task state is dispatched: completed tasks send
their artifact parts in order, input-required tasks send the text parts of
the status message (or a fixed prompt), and every other state sends one
message naming the state value followed by the status message text parts. -/
def process_a2a_response : Option SendTaskResponse → List Out
  | none => [.send "抱歉，服务器没有返回响应。"]
  | some response =>
    match response.error with
    | some error => [.send ("错误 [" ++ toString error.code ++ "]: " ++ error.message)]
    | none =>
      match response.result with
      | none => [.send "服务器返回了空的结果。"]
      | some result =>
        let status := result.status
        let state := status.state
        if state = TaskState.completed then
          let artifacts := result.artifacts.getD []
          if artifacts = [] then
            [.send "任务完成，但没有生成任何内容。"]
          else
            artifacts.flatMap (fun artifact => artifact.parts.flatMap processPart)
        else if state = TaskState.input_required then
          match status.message with
          | some message =>
              if message.parts ≠ [] then
                message.parts.flatMap
                  (fun part => match part with | .text t => [.send t] | _ => [])
              else [.send "需要更多信息，请提供详细说明。"]
          | none => [.send "需要更多信息，请提供详细说明。"]
        else
          let status_text := "任务状态: " ++ state.value
          let status_text :=
            match status.message with
            | some m =>
                m.parts.foldl
                  (fun acc part =>
                    match part with | .text t => acc ++ "\n" ++ t | _ => acc)
                  status_text
            | none => status_text
          [.send status_text]

/-! ### Helper lemmas -/

/-- Looking up a key right after setting it yields the value just set. -/
lemma lookupKV_setKV_self {β : Type} (key : String) (value : β) :
    ∀ l : List (String × β), lookupKV key (setKV key value l) = some value := by
  intro l
  induction l with
  | nil => simp [setKV, lookupKV]
  | cons hd tl ih =>
      obtain ⟨k, v⟩ := hd
      by_cases h : k = key
      · simp [setKV, lookupKV, h]
      · simp [setKV, lookupKV, h, ih]

lemma mk_length (l : List Char) : (String.mk l).length = l.length := rfl

lemma mk_take (l : List Char) (n : Nat) : (String.mk l).take n = String.mk (l.take n) :=
  String.take_eq _ _

lemma mk_drop (l : List Char) (n : Nat) : (String.mk l).drop n = String.mk (l.drop n) :=
  String.drop_eq _ _

lemma enumFrom_three {α : Type} (x y z : α) :
    List.enumFrom 1 [x, y, z] = [(1, x), (2, y), (3, z)] := rfl

/-- The 5000-character text of the chunking scenario. -/
def text5000 : String := String.mk (List.replicate 5000 'a')

lemma length_text5000 : text5000.length = 5000 := by
  rw [text5000, mk_length, List.length_replicate]

/-- splitParts cuts the 5000-character text at ceiling 2000 into chunks of
2000, 2000 and 1000 characters. -/
lemma splitParts_5000 : splitParts text5000 2000 =
    [String.mk (List.replicate 2000 'a'), String.mk (List.replicate 2000 'a'),
     String.mk (List.replicate 1000 'a')] := by
  rw [splitParts, length_text5000]
  norm_num
  rw [show List.range 3 = [0, 1, 2] by decide]
  simp only [List.map_cons, List.map_nil, text5000, mk_drop, mk_take,
    List.drop_replicate, List.take_replicate]
  norm_num

/-- The full outbound action sequence of send_long_text on the
5000-character text with ceiling 2000. -/
lemma send_long_text_5000 : send_long_text text5000 2000 =
    [Out.send ("[1/3]\n" ++ String.mk (List.replicate 2000 'a')), Out.sleep,
     Out.send ("[2/3]\n" ++ String.mk (List.replicate 2000 'a')), Out.sleep,
     Out.send ("[3/3]\n" ++ String.mk (List.replicate 1000 'a')), Out.sleep] := by
  rw [send_long_text, length_text5000, if_neg (by norm_num)]
  simp only [splitParts_5000, List.length_cons, List.length_nil]
  rw [enumFrom_three, List.flatMap_cons, List.flatMap_cons, List.flatMap_cons,
    List.flatMap_nil]
  simp only [List.append_nil, List.cons_append, List.nil_append]
  rw [show "[" ++ toString (1 : Nat) ++ "/" ++ toString (2 + 1 : Nat) ++ "]\n" = "[1/3]\n" by decide,
    show "[" ++ toString (2 : Nat) ++ "/" ++ toString (2 + 1 : Nat) ++ "]\n" = "[2/3]\n" by decide,
    show "[" ++ toString (3 : Nat) ++ "/" ++ toString (2 + 1 : Nat) ++ "]\n" = "[3/3]\n" by decide]

/-- The completed-task response of the chunking scenario: one artifact
holding one text part of 5000 characters. -/
def resp5000 : SendTaskResponse :=
  { result := some
      { id := "task-1"
        status := { state := TaskState.completed }
        artifacts := some [{ parts := [Part.text text5000] }] } }

/-- process_a2a_response on the chunking scenario reduces to send_long_text
on its text part. -/
lemma process_resp5000 :
    process_a2a_response (some resp5000) = send_long_text text5000 2000 := by
  simp [process_a2a_response, resp5000, processPart, send_long_text]

lemma sentTexts_send (t : String) (rest : List Out) :
    sentTexts (Out.send t :: rest) = t :: sentTexts rest := rfl

lemma sentTexts_sleep (rest : List Out) :
    sentTexts (Out.sleep :: rest) = sentTexts rest := rfl

lemma sentTexts_nil : sentTexts [] = [] := rfl

/-- The length of a label-plus-replicate unit is the label length plus the
chunk length. -/
lemma length_label_chunk (lab : String) (n : Nat) :
    (lab ++ String.mk (List.replicate n 'a')).length = lab.length + n := by
  rw [String.length_append]
  congr 1
  exact List.length_replicate n 'a'

/-! ### Claim theorems -/

/-- C1: for a tenant with no pool entry, get_user_a2a_client constructs
exactly one new client (the allocator advances by one and returns the
freshly allocated handle) bound to the effective endpoint — the stored
a2a_server_url preference if set, else the default — and installs it with
the current time as last-active timestamp; for a tenant with an entry, it
returns that same client handle, refreshes its last-active timestamp to
the current time, and constructs nothing (the allocator is unchanged). -/
theorem get_user_a2a_client_spec (now : Int) (db : UserDB)
    (default_a2a_server_url user_id : String) (s : PoolState) :
    match lookupKV user_id s.user_a2a_clients with
    | some (client, _) =>
        (get_user_a2a_client now db default_a2a_server_url user_id s).1 = client ∧
        lookupKV user_id
          (get_user_a2a_client now db default_a2a_server_url user_id s).2.user_a2a_clients =
          some (client, now) ∧
        (get_user_a2a_client now db default_a2a_server_url user_id s).2.nextId = s.nextId
    | none =>
        (get_user_a2a_client now db default_a2a_server_url user_id s).1 =
          mkA2AClient s.nextId
            (match lookupKV "a2a_server_url" (db user_id) with
             | some pref => pref
             | none => default_a2a_server_url) ∧
        lookupKV user_id
          (get_user_a2a_client now db default_a2a_server_url user_id s).2.user_a2a_clients =
          some ((get_user_a2a_client now db default_a2a_server_url user_id s).1, now) ∧
        (get_user_a2a_client now db default_a2a_server_url user_id s).2.nextId = s.nextId + 1 := by
  rcases h : lookupKV user_id s.user_a2a_clients with _ | ⟨client, t⟩ <;>
    simp [get_user_a2a_client, h, get_user_key, lookupKV_setKV_self]

/-- C2: one pass of cleanup_inactive_clients keeps a pool entry exactly
when its last-active timestamp is at or within the inactivity threshold:
an entry is in the swept pool iff it was in the pool before and
current_time minus its last-active time is not strictly greater than the
timeout. -/
theorem cleanup_inactive_clients_spec (current_time client_inactive_timeout : Int)
    (s : PoolState) (user_id : String) (client : A2AClientH) (last_active : Int) :
    (user_id, client, last_active) ∈
      (cleanup_inactive_clients current_time client_inactive_timeout s).user_a2a_clients ↔
    ((user_id, client, last_active) ∈ s.user_a2a_clients ∧
      current_time - last_active ≤ client_inactive_timeout) := by
  simp [cleanup_inactive_clients, List.mem_filter, not_lt]

/-- The empty preference store. -/
def db_empty : UserDB := fun _ => []

/-- A pool holding one live client (id 0) for user u1. -/
def pool_u1 : PoolState :=
  { user_a2a_clients := [("u1", { id := 0, url := "http://old" }, 100)]
    closed := []
    nextId := 1 }

/-- C3: the failing input evaluated.  Starting from a pool with a live
client for u1, an endpoint replacement whose client construction fails
returns false, yet closes the existing client first; the entry it leaves in
place holds the closed client, and the next get_user_a2a_client for u1
returns that client, whose id is in the closed set — the pool exposes a
closed client to a caller of acquire, against the stated invariant. -/
theorem update_failure_exposes_closed_client :
    (update_user_a2a_client 200 false "u1" "http://new" pool_u1).1 = false ∧
    (get_user_a2a_client 300 db_empty "http://default" "u1"
        (update_user_a2a_client 200 false "u1" "http://new" pool_u1).2).1.id ∈
      (update_user_a2a_client 200 false "u1" "http://new" pool_u1).2.closed := by
  constructor
  · rfl
  · decide

/-- C4 counterexample: on a response carrying error code 400 and message
"bad", process_a2a_response emits exactly one unit, but its text is
"错误 [400]: bad", not "Error [400]: bad" as the claim states. -/
theorem process_error_unit_text_differs :
    process_a2a_response (some { error := some { code := 400, message := "bad" } }) =
      [Out.send "错误 [400]: bad"] ∧
    "错误 [400]: bad" ≠ "Error [400]: bad" := by
  constructor
  · rfl
  · decide

/-- C4 amended: for every protocol-level error object with code c and
message m, and whatever result the response also carries,
process_a2a_response emits exactly one render unit, whose text is
"错误 [c]: m", and performs no further processing. -/
theorem process_error_emits_one_unit (code : Int) (message : String)
    (result : Option Task) :
    process_a2a_response
        (some { result := result, error := some { code := code, message := message } }) =
      [Out.send ("错误 [" ++ toString code ++ "]: " ++ message)] := rfl

/-- C5 counterexample: for the completed task with one 5000-character text
part and ceiling 2000, the three emitted units have lengths 2006, 2006 and
1006 — the first two exceed the ceiling of 2000, against the claim that
every emitted unit is within the ceiling. -/
theorem completed_5000_unit_lengths :
    (sentTexts (process_a2a_response (some resp5000))).map String.length =
      [2006, 2006, 1006] ∧ 2000 < 2006 := by
  rw [process_resp5000, send_long_text_5000]
  refine ⟨?_, by norm_num⟩
  rw [sentTexts_send, sentTexts_sleep, sentTexts_send, sentTexts_sleep,
    sentTexts_send, sentTexts_sleep, sentTexts_nil]
  simp only [List.map_cons, List.map_nil, length_label_chunk]
  rw [show ("[1/3]\n" : String).length = 6 from rfl,
    show ("[2/3]\n" : String).length = 6 from rfl,
    show ("[3/3]\n" : String).length = 6 from rfl]

/-- C5 amended: for the completed task with one 5000-character text part
and ceiling 2000, the pipeline emits exactly 3 ordered units labeled
[1/3], [2/3], [3/3] in that order, each unit being its label, a newline and
one chunk; every chunk is within the ceiling of 2000 (the full labeled
units exceed it by the 6-character label). -/
theorem completed_5000_chunking :
    process_a2a_response (some resp5000) =
      [Out.send ("[1/3]\n" ++ String.mk (List.replicate 2000 'a')), Out.sleep,
       Out.send ("[2/3]\n" ++ String.mk (List.replicate 2000 'a')), Out.sleep,
       Out.send ("[3/3]\n" ++ String.mk (List.replicate 1000 'a')), Out.sleep] ∧
    (splitParts text5000 2000).all (fun chunk => chunk.length ≤ 2000) = true := by
  refine ⟨?_, ?_⟩
  · rw [process_resp5000, send_long_text_5000]
  · rw [splitParts_5000]
    simp only [List.all_cons, List.all_nil, mk_length, List.length_replicate,
      Bool.and_true]
    norm_num

/-- C6 counterexample: a 201 response — a 2xx success status — raises
A2AClientHTTPError, because _send_request treats every status other than
exactly 200 as an error. -/
theorem status_201_raises :
    send_request (PostOutcome.response 201 "created" (Except.ok ())) =
      Except.error (A2AClientError.httpError 201 "created") ∧
    200 ≤ 201 ∧ 201 < 300 := ⟨rfl, by norm_num, by norm_num⟩

/-- C6 amended: _send_request raises A2AClientHTTPError for every status
other than exactly 200 (its message carrying the status code and response
body); a 200 response whose body fails JSON decoding raises
A2AClientJSONError; a network error raises A2AClientHTTPError(500, reason);
a timeout raises A2AClientHTTPError(408, "Request timeout"), a
distinguishable deadline-exceeded report, never a silent retry. -/
theorem send_request_spec (α : Type) (status : Nat) (bodyText : String) (d : α)
    (e msg : String) :
    (send_request (PostOutcome.response status bodyText (Except.ok d)) =
      if status = 200 then Except.ok d
      else Except.error (A2AClientError.httpError status bodyText)) ∧
    (send_request (PostOutcome.response status bodyText (Except.error e)) =
      (if status = 200 then Except.error (A2AClientError.jsonError e)
       else Except.error (A2AClientError.httpError status bodyText) : Except _ α)) ∧
    (send_request (PostOutcome.clientError msg) =
      (Except.error (A2AClientError.httpError 500 msg) : Except _ α)) ∧
    ((send_request PostOutcome.timeout : Except _ α) =
      Except.error (A2AClientError.httpError 408 "Request timeout")) ∧
    (A2AClientError.httpError status bodyText).toMessage =
      "HTTP Error " ++ toString status ++ ": " ++ bodyText := by
  refine ⟨?_, ?_, rfl, rfl, rfl⟩ <;> by_cases h : status = 200 <;> simp [send_request, h]

/-- C7: check_health returns true exactly when the probe completed with
HTTP status 200 and a JSON-decodable body; a non-200 status, a JSON decode
failure and every raised exception (network error, timeout, ...) return
false.  check_health is a total function into Bool: no outcome propagates
an exception. -/
theorem check_health_spec (status : Nat) (parsed : Except String AgentCard)
    (msg : String) :
    (check_health (ProbeOutcome.response status parsed) =
      (decide (status = 200) &&
        (match parsed with | .ok _ => true | .error _ => false))) ∧
    check_health (ProbeOutcome.exn msg) = false := by
  refine ⟨?_, rfl⟩
  by_cases h : status = 200 <;> cases parsed <;> simp [check_health, h]

/-- C8 counterexample: a file content whose bytes field is set to the empty
string and whose uri field is unset has exactly one of the two fields set,
yet construction fails validation, because Python truthiness treats the
empty string as absent. -/
theorem empty_bytes_rejected :
    FileContent.check_content { bytes := some "", uri := none } =
      Except.error "Either 'bytes' or 'uri' must be present in the file data" ∧
    (some "" : Option String) ≠ none := by
  constructor
  · rfl
  · decide

/-- C8 amended: construction succeeds exactly when precisely one of the
inline bytes field and the reference URI field is a non-empty string (None
and the empty string both count as unset, by Python truthiness); with both
non-empty it fails with the only-one message, otherwise it fails with the
either-required message. -/
theorem check_content_spec (fc : FileContent) :
    FileContent.check_content fc =
      if truthyStr fc.bytes != truthyStr fc.uri then Except.ok fc
      else if truthyStr fc.bytes then
        Except.error "Only one of 'bytes' or 'uri' can be present in the file data"
      else Except.error "Either 'bytes' or 'uri' must be present in the file data" := by
  cases hb : truthyStr fc.bytes <;> cases hu : truthyStr fc.uri <;>
    simp [FileContent.check_content, hb, hu]

/-- C9 counterexample: the input-required member of the task-state
enumeration is encoded as "input-required", not "input_required", and the
codec does not accept the string "input_required". -/
theorem input_required_value_hyphenated :
    TaskState.value TaskState.input_required = "input-required" ∧
    TaskState.ofValue "input_required" = none ∧
    "input-required" ≠ "input_required" := by
  refine ⟨rfl, ?_, by decide⟩
  rfl

/-- C9 amended: the task-state codec round-trips every member, and the
seven string values are exactly submitted, working, input-required,
completed, canceled, failed, unknown — the input-required state being
encoded and decoded as "input-required". -/
theorem taskstate_codec_spec (t : TaskState) :
    TaskState.ofValue (TaskState.value t) = some t ∧
    TaskState.value t ∈
      ["submitted", "working", "input-required", "completed", "canceled",
       "failed", "unknown"] := by
  cases t <;> exact ⟨rfl, by decide⟩

/-- C10: a text whose length is at most the chunk ceiling is sent as
exactly one outbound message, verbatim, with no label and no inter-send
pause. -/
theorem send_long_text_short (text : String) (max_length : Nat)
    (h : text.length ≤ max_length) :
    send_long_text text max_length = [Out.send text] := by
  rw [send_long_text, if_pos h]

/-- C10 witness: the theorem applied at the 5-character text "hello" with
the default ceiling 2000. -/
theorem send_long_text_short_witness :
    send_long_text "hello" 2000 = [Out.send "hello"] :=
  send_long_text_short "hello" 2000 (by decide)

end A2ABridge
